import Mathlib

/-!
Verification development for the msal-react-obo-aisearch demo repository.

Embedded directly from the repository source:
- parseJwt (src/pages/Home.jsx): unverified JWT payload decode used for display,
  returning the decoded claims object or null.
- callPythonOboApi (src/utils/ApiCall.js): browser-side call to the middle-tier
  API, optionally acquiring a token through MSAL first.

The middle-tier relay itself (app.py) is not part of the source tree; only
excerpts of it appear in the documentation.  The relay definitions further down
are therefore modelled from the specification, as their doc comments state.
-/

namespace JwtDemo

/-- Model of the JavaScript exceptions the parseJwt body can raise: TypeError
(property access on undefined), InvalidCharacterError (atob), URIError
(decodeURIComponent), SyntaxError (JSON.parse). -/
inductive JsError
  | typeError
  | invalidCharacterError
  | uriError
  | syntaxError
  deriving Repr, DecidableEq

/-- Boolean range test on naturals, used to keep the byte-level decoders in Bool. -/
def inRange (lo hi n : Nat) : Bool := Nat.ble lo n && Nat.ble n hi

/-- ASCII whitespace removed by the forgiving-base64 decode implementing atob. -/
def isB64Ws (c : Char) : Bool :=
  c == ' ' || c == Char.ofNat 9 || c == Char.ofNat 10 || c == Char.ofNat 12 || c == Char.ofNat 13

/-- Six-bit value of a base64 alphabet character, none outside the alphabet. -/
def b64Val (c : Char) : Option Nat :=
  let n := c.toNat
  if inRange 65 90 n then some (n - 65)
  else if inRange 97 122 n then some (n - 97 + 26)
  else if inRange 48 57 n then some (n - 48 + 52)
  else if n == 43 then some 62
  else if n == 47 then some 63
  else none

/-- Strip at most two trailing padding characters, as forgiving-base64 does when
the input length is a multiple of four. -/
def stripPad (l : List Char) : List Char :=
  if l.length % 4 == 0 then
    match l.reverse with
    | '=' :: '=' :: rest => rest.reverse
    | '=' :: rest => rest.reverse
    | _ => l
  else l

/-- Map base64 characters to six-bit values, failing on any character outside
the alphabet (atob raises InvalidCharacterError there). -/
def b64Vals : List Char → Except JsError (List Nat)
  | [] => .ok []
  | c :: rest =>
    match b64Val c with
    | none => .error .invalidCharacterError
    | some v => (b64Vals rest).map (v :: ·)

/-- Reassemble six-bit groups into bytes; leftover bits of a final short group
are discarded, as forgiving-base64 prescribes. -/
def b64Bytes : List Nat → List Nat
  | a :: b :: c :: d :: rest =>
      (a * 4 + b / 16) :: (b % 16 * 16 + c / 4) :: (c % 4 * 64 + d) :: b64Bytes rest
  | [a, b] => [a * 4 + b / 16]
  | [a, b, c] => [a * 4 + b / 16, b % 16 * 16 + c / 4]
  | _ => []

/-- Model of the JavaScript atob: forgiving-base64 decode of a string into a
byte sequence.  Whitespace is removed, then padding stripped, then a length
congruent to one modulo four or a character outside the alphabet is an error. -/
def atob (s : List Char) : Except JsError (List Nat) :=
  let data := stripPad (s.filter (fun c => !isB64Ws c))
  if data.length % 4 == 1 then .error .invalidCharacterError
  else (b64Vals data).map b64Bytes

/-- Is a UTF-8 continuation byte. -/
def isCont (b : Nat) : Bool := inRange 128 191 b

/-- Strict UTF-8 decoder over bytes.  The parseJwt body percent-encodes every
byte and feeds the result to decodeURIComponent, which is exactly a UTF-8
decode raising URIError on malformed sequences.  Fuel bounds the recursion;
one unit is spent per decoded character. -/
def utf8DecodeAux : Nat → List Nat → Except JsError (List Char)
  | _, [] => .ok []
  | 0, _ :: _ => .error .uriError
  | fuel + 1, b :: rest =>
    if inRange 0 127 b then
      (utf8DecodeAux fuel rest).map (Char.ofNat b :: ·)
    else
      match rest with
      | [] => .error .uriError
      | b1 :: rest1 =>
        if inRange 194 223 b && isCont b1 then
          (utf8DecodeAux fuel rest1).map (Char.ofNat ((b - 192) * 64 + (b1 - 128)) :: ·)
        else
          match rest1 with
          | [] => .error .uriError
          | b2 :: rest2 =>
            if (b == 224 && inRange 160 191 b1 ||
                b == 237 && inRange 128 159 b1 ||
                (inRange 225 236 b || b == 238 || b == 239) && isCont b1) && isCont b2 then
              (utf8DecodeAux fuel rest2).map
                (Char.ofNat ((b - 224) * 4096 + (b1 - 128) * 64 + (b2 - 128)) :: ·)
            else
              match rest2 with
              | [] => .error .uriError
              | b3 :: rest3 =>
                if (b == 240 && inRange 144 191 b1 ||
                    inRange 241 243 b && isCont b1 ||
                    b == 244 && inRange 128 143 b1) && isCont b2 && isCont b3 then
                  (utf8DecodeAux fuel rest3).map
                    (Char.ofNat ((b - 240) * 262144 + (b1 - 128) * 4096 +
                      (b2 - 128) * 64 + (b3 - 128)) :: ·)
                else .error .uriError

/-- UTF-8 decode of a byte sequence; the byte count bounds the character count,
so it is always enough fuel. -/
def utf8Decode (bytes : List Nat) : Except JsError (List Char) :=
  utf8DecodeAux bytes.length bytes

/-- JSON values as produced by JSON.parse.  A number is kept exactly as a
decimal mantissa and a power of ten, avoiding floating point. -/
inductive Json
  | null
  | bool (b : Bool)
  | num (mantissa : Int) (exp10 : Int)
  | str (s : String)
  | arr (elems : List Json)
  | obj (fields : List (String × Json))

/-- JSON insignificant whitespace. -/
def jsonWs (c : Char) : Bool :=
  c == ' ' || c == Char.ofNat 9 || c == Char.ofNat 10 || c == Char.ofNat 13

/-- Drop leading JSON whitespace. -/
def skipWs (s : List Char) : List Char := s.dropWhile jsonWs

/-- Is an ASCII digit. -/
def isDigit (c : Char) : Bool := inRange 48 57 c.toNat

/-- Consume a run of digits, returning the accumulated value, the count of
digits consumed and the remaining input. -/
def parseDigitsAux (acc cnt : Nat) : List Char → Nat × Nat × List Char
  | [] => (acc, cnt, [])
  | c :: rest =>
    if isDigit c then parseDigitsAux (acc * 10 + (c.toNat - 48)) (cnt + 1) rest
    else (acc, cnt, c :: rest)

/-- Hexadecimal digit value. -/
def hexVal (c : Char) : Option Nat :=
  let n := c.toNat
  if inRange 48 57 n then some (n - 48)
  else if inRange 65 70 n then some (n - 65 + 10)
  else if inRange 97 102 n then some (n - 97 + 10)
  else none

/-- Parse the JSON number grammar starting at the given input (first character
already known to be a minus sign or digit): optional minus, integer part with
no superfluous leading zero, optional fraction, optional exponent. -/
def parseNumber (s : List Char) : Except JsError (Json × List Char) :=
  let (neg, s1) := match s with
    | '-' :: r => (true, r)
    | _ => (false, s)
  match s1 with
  | [] => .error .syntaxError
  | c :: rest =>
    if c == '0' || isDigit c then
      let (ipart, r1) :=
        if c == '0' then ((0 : Nat), rest)
        else
          let (v, _, r) := parseDigitsAux (c.toNat - 48) 1 rest
          (v, r)
      let (mant, fexp, r2) : Nat × Int × List Char :=
        match r1 with
        | '.' :: fr =>
          let (fv, fc, r) := parseDigitsAux 0 0 fr
          if fc == 0 then (ipart, 0, '.' :: fr)
          else (ipart * 10 ^ fc + fv, -(fc : Int), r)
        | _ => (ipart, 0, r1)
      if (match r1 with | '.' :: fr => (parseDigitsAux 0 0 fr).2.1 == 0 | _ => false) then
        .error .syntaxError
      else
        match r2 with
        | 'e' :: er | 'E' :: er =>
          let (esign, er1) := match er with
            | '+' :: r => ((1 : Int), r)
            | '-' :: r => ((-1 : Int), r)
            | _ => ((1 : Int), er)
          let (ev, ec, r3) := parseDigitsAux 0 0 er1
          if ec == 0 then .error .syntaxError
          else .ok (.num (if neg then -(mant : Int) else (mant : Int)) (fexp + esign * ev), r3)
        | _ => .ok (.num (if neg then -(mant : Int) else (mant : Int)) fexp, r2)
    else .error .syntaxError

/-- Parse the contents of a JSON string after the opening quote, handling the
escape sequences of the JSON grammar.  Lone surrogate escapes are modelled as
a syntax error (a Lean string cannot hold them); surrogate pairs combine.
Fuel is one unit per produced character. -/
def parseStringAux : Nat → List Char → Except JsError (List Char × List Char)
  | _, [] => .error .syntaxError
  | 0, _ :: _ => .error .syntaxError
  | fuel + 1, c :: rest =>
    if c == '"' then .ok ([], rest)
    else if c == '\\' then
      match rest with
      | [] => .error .syntaxError
      | e :: rest1 =>
        if e == '"' || e == '\\' || e == '/' then
          (parseStringAux fuel rest1).map (fun (l, r) => (e :: l, r))
        else if e == 'b' then
          (parseStringAux fuel rest1).map (fun (l, r) => (Char.ofNat 8 :: l, r))
        else if e == 'f' then
          (parseStringAux fuel rest1).map (fun (l, r) => (Char.ofNat 12 :: l, r))
        else if e == 'n' then
          (parseStringAux fuel rest1).map (fun (l, r) => (Char.ofNat 10 :: l, r))
        else if e == 'r' then
          (parseStringAux fuel rest1).map (fun (l, r) => (Char.ofNat 13 :: l, r))
        else if e == 't' then
          (parseStringAux fuel rest1).map (fun (l, r) => (Char.ofNat 9 :: l, r))
        else if e == 'u' then
          match rest1 with
          | h1 :: h2 :: h3 :: h4 :: rest2 =>
            match hexVal h1, hexVal h2, hexVal h3, hexVal h4 with
            | some v1, some v2, some v3, some v4 =>
              let code := v1 * 4096 + v2 * 256 + v3 * 16 + v4
              if inRange 55296 56319 code then
                match rest2 with
                | '\\' :: 'u' :: g1 :: g2 :: g3 :: g4 :: rest3 =>
                  match hexVal g1, hexVal g2, hexVal g3, hexVal g4 with
                  | some w1, some w2, some w3, some w4 =>
                    let lo := w1 * 4096 + w2 * 256 + w3 * 16 + w4
                    if inRange 56320 57343 lo then
                      (parseStringAux fuel rest3).map (fun (l, r) =>
                        (Char.ofNat (65536 + (code - 55296) * 1024 + (lo - 56320)) :: l, r))
                    else .error .syntaxError
                  | _, _, _, _ => .error .syntaxError
                | _ => .error .syntaxError
              else if inRange 56320 57343 code then .error .syntaxError
              else (parseStringAux fuel rest2).map (fun (l, r) => (Char.ofNat code :: l, r))
            | _, _, _, _ => .error .syntaxError
          | _ => .error .syntaxError
        else .error .syntaxError
    else if c.toNat < 32 then .error .syntaxError
    else (parseStringAux fuel rest).map (fun (l, r) => (c :: l, r))

/-- Match a literal keyword such as true, false or null. -/
def expectChars : List Char → List Char → Option (List Char)
  | [], s => some s
  | k :: ks, c :: rest => if c == k then expectChars ks rest else none
  | _ :: _, [] => none

/-- Dispatch tag for the single recursive JSON parser: parsing one value,
the elements of a nonempty array, or the members of a nonempty object (the
latter two carry their accumulator in reverse). -/
inductive PMode
  | value
  | elems (acc : List Json)
  | members (acc : List (String × Json))

/-- Recursive-descent parser following the JSON.parse grammar, written as one
function structurally recursive on fuel so that it reduces definitionally;
fuel decreases on every nested parse and every repetition step. -/
def parseCore : Nat → PMode → List Char → Except JsError (Json × List Char)
  | 0, _, _ => .error .syntaxError
  | fuel + 1, .value, s =>
    match skipWs s with
    | [] => .error .syntaxError
    | c :: rest =>
      if c == '"' then
        (parseStringAux (rest.length + 1) rest).map (fun (l, r) => (.str (String.mk l), r))
      else if c == '-' || isDigit c then parseNumber (c :: rest)
      else if c == 't' then
        match expectChars ['r', 'u', 'e'] rest with
        | some r => .ok (.bool true, r)
        | none => .error .syntaxError
      else if c == 'f' then
        match expectChars ['a', 'l', 's', 'e'] rest with
        | some r => .ok (.bool false, r)
        | none => .error .syntaxError
      else if c == 'n' then
        match expectChars ['u', 'l', 'l'] rest with
        | some r => .ok (.null, r)
        | none => .error .syntaxError
      else if c == '[' then
        match skipWs rest with
        | ']' :: r => .ok (.arr [], r)
        | _ => parseCore fuel (.elems []) rest
      else if c == Char.ofNat 123 then
        match skipWs rest with
        | r :: rs =>
          if r == Char.ofNat 125 then .ok (.obj [], rs)
          else parseCore fuel (.members []) rest
        | [] => .error .syntaxError
      else .error .syntaxError
  | fuel + 1, .elems acc, s =>
    match parseCore fuel .value s with
    | .error e => .error e
    | .ok (v, r) =>
      match skipWs r with
      | ',' :: r2 => parseCore fuel (.elems (v :: acc)) r2
      | ']' :: r2 => .ok (.arr (v :: acc).reverse, r2)
      | _ => .error .syntaxError
  | fuel + 1, .members acc, s =>
    match skipWs s with
    | '"' :: rest =>
      match parseStringAux (rest.length + 1) rest with
      | .error e => .error e
      | .ok (key, r) =>
        match skipWs r with
        | ':' :: r2 =>
          match parseCore fuel .value r2 with
          | .error e => .error e
          | .ok (v, r3) =>
            match skipWs r3 with
            | ',' :: r4 => parseCore fuel (.members ((String.mk key, v) :: acc)) r4
            | r5 :: r6 =>
              if r5 == Char.ofNat 125 then .ok (.obj ((String.mk key, v) :: acc).reverse, r6)
              else .error .syntaxError
            | [] => .error .syntaxError
        | _ => .error .syntaxError
    | _ => .error .syntaxError

/-- Model of JSON.parse over the character list of the payload: parse one JSON
value and require only whitespace after it.  The fuel is generous: every unit
of nesting or repetition consumes at least one input character. -/
def jsonParse (s : List Char) : Except JsError Json :=
  match parseCore (2 * s.length + 2) .value s with
  | .error e => .error e
  | .ok (v, rest) => if (skipWs rest).isEmpty then .ok v else .error .syntaxError

/-- Split on the dot character, the semantics of the JavaScript
token.split call with a one-character string separator. -/
def splitOnDot : List Char → List (List Char)
  | [] => [[]]
  | c :: rest =>
    let r := splitOnDot rest
    if c == '.' then [] :: r
    else
      match r with
      | seg :: segs => (c :: seg) :: segs
      | [] => [[c]]

/-- Body of parseJwt (src/pages/Home.jsx), with every JavaScript exception
point an Except.error: token.split center segment (undefined when there are
fewer than two segments, so the .replace call raises TypeError), base64url to
base64 character replacement, atob, the percent-encode plus decodeURIComponent
chain (a UTF-8 decode), and JSON.parse. -/
def parseJwtBody (token : String) : Except JsError Json :=
  match (splitOnDot token.toList)[1]? with
  | none => .error .typeError
  | some base64Url =>
    let base64 := base64Url.map
      (fun c => if c == '-' then '+' else if c == '_' then '/' else c)
    match atob base64 with
    | .error e => .error e
    | .ok bytes =>
      match utf8Decode bytes with
      | .error e => .error e
      | .ok jsonPayload => jsonParse jsonPayload

/-- parseJwt (src/pages/Home.jsx): the surrounding try/catch turns every
exception of the body into null, so the result is the claims object or null. -/
def parseJwt (token : String) : Option Json := (parseJwtBody token).toOption

/-- Look up a top-level field of a decoded claims object. -/
def jsonLookup (j : Json) (key : String) : Option Json :=
  match j with
  | .obj fields => (fields.find? (fun f => f.1 == key)).map (·.2)
  | _ => none

/-- A structurally well-formed three-segment token whose payload is the
base64url encoding of a claims object with exp 0, an expiry in the deep
past. -/
def expiredDemoToken : String := "h.eyJleHAiOjB9.s"

/-- A structurally well-formed three-segment token whose payload encodes a
claims object with exp 9999999999, an expiry in the far future. -/
def farFutureDemoToken : String := "h.eyJleHAiOjk5OTk5OTk5OTl9.s"

end JwtDemo

namespace ApiCall

/-- The slice of the MSAL instance that callPythonOboApi consults: the active
account, and the outcome of acquireTokenSilent (a rejection message or an
access token). -/
structure MsalInstance where
  activeAccount : Option String
  acquireTokenSilent : Except String String

/-- The HTTP response observed by the fetch call. -/
structure FetchResponse where
  ok : Bool
  status : Nat
  statusText : String
  jsonBody : String

/-- Outcome of the call as seen by the caller: the parsed JSON body, or a
thrown error message (the catch in the source logs and rethrows, so errors
still propagate to the caller). -/
inductive CallResult
  | jsonOf (body : String)
  | thrown (msg : String)
  deriving Repr, DecidableEq

/-- Observable trace of one callPythonOboApi invocation: how many times MSAL
token acquisition ran, the Authorization header attached to the request (none
when the function threw before issuing it), how many fetches were issued, and
the final outcome. -/
structure CallTrace where
  msalAcquireCalls : Nat
  authorizationHeader : Option String
  fetchCalls : Nat
  result : CallResult
  deriving Repr, DecidableEq

/-- Second half of callPythonOboApi (src/utils/ApiCall.js): build the Bearer
header with a template literal, issue the fetch, and map the response: non-ok
responses throw an Error built from status and statusText, ok responses
produce the JSON body. -/
def fetchWithBearer (acquireCalls : Nat) (accessToken : String)
    (response : FetchResponse) : CallTrace :=
  let bearer := "Bearer " ++ accessToken
  if response.ok then
    ⟨acquireCalls, some bearer, 1, .jsonOf response.jsonBody⟩
  else
    ⟨acquireCalls, some bearer, 1,
      .thrown ("HTTP " ++ toString response.status ++ ": " ++ response.statusText)⟩

/-- callPythonOboApi (src/utils/ApiCall.js).  The accessToken argument may be
undefined (none) or a string; the falsy test in the source is true exactly
for undefined and the empty string, and only then is MSAL consulted (failing
with the no-active-account Error when no account is set). -/
def callPythonOboApi (accessToken : Option String) (msal : MsalInstance)
    (response : FetchResponse) : CallTrace :=
  let tokenFalsy := match accessToken with
    | none => true
    | some s => s == ""
  if tokenFalsy then
    match msal.activeAccount with
    | none =>
      ⟨0, none, 0, .thrown
        "No active account! Verify a user has been signed in and setActiveAccount has been called."⟩
    | some _ =>
      match msal.acquireTokenSilent with
      | .error e => ⟨1, none, 0, .thrown e⟩
      | .ok tok => fetchWithBearer 1 tok response
  else fetchWithBearer 0 (accessToken.getD "") response

end ApiCall

namespace Relay

/-- Modelled from the spec: the parsed identity of §3 InboundToken (the
middle-tier app.py that holds the relay is not in the source tree, only
excerpted in the documentation; these definitions follow the specification,
as stated per definition). -/
structure Claims where
  subjectId : String
  tenantId : String
  groupIds : List String
  expiry : Nat
  audience : String
  deriving Repr, DecidableEq

/-- Modelled from the spec: §3 per-target authentication strategy. -/
inductive AuthStrategy
  | Delegated
  | SharedSecret
  deriving Repr, DecidableEq

/-- Modelled from the spec: §3 DownstreamTarget static configuration. -/
structure DownstreamTarget where
  name : String
  baseUrl : String
  requiredScope : String
  authStrategy : AuthStrategy
  timeoutMs : Nat
  deriving Repr, DecidableEq

/-- Modelled from the spec: §3 Credential, polymorphic over delegated tokens
and shared secrets. -/
inductive Credential
  | DelegatedToken (token : String) (expiry : Nat) (scopeGrantedTo : String)
  | SharedSecretKey (key : String)
  deriving Repr, DecidableEq

/-- The enum tag of a credential, the only part of it a response may expose. -/
def Credential.kind : Credential → AuthStrategy
  | .DelegatedToken _ _ _ => .Delegated
  | .SharedSecretKey _ => .SharedSecret

/-- Modelled from the spec: §4.2 exchange failure kinds. -/
inductive ExchangeErrorKind
  | ConsentRequired
  | PermissionDenied
  | TransientFailure
  deriving Repr, DecidableEq

/-- Modelled from the spec: §4.2/§7 failures of credential resolution. -/
inductive CredError
  | ExchangeError (kind : ExchangeErrorKind)
  | MisconfiguredCredentialError
  deriving Repr, DecidableEq

/-- Modelled from the spec: §6 result of the collaborator's exchangeToken. -/
structure ExchangedToken where
  accessToken : String
  expiry : Nat
  deriving Repr, DecidableEq

/-- The failure shape of one exchange outcome: none for success, the error
kind on failure.  Two collaborators with the same shape differ only in the
token material they mint. -/
def exchangeShape (r : Except ExchangeErrorKind ExchangedToken) :
    Option ExchangeErrorKind :=
  match r with
  | .ok _ => none
  | .error e => some e

/-- Modelled from the spec: §4.2 resolveCredential.  A SharedSecret target
reads the static configuration (MisconfiguredCredentialError when absent) and
never calls the exchange collaborator; a Delegated target calls it, retrying
at most once and only after TransientFailure.  The collaborator is the outcome
of its nth invocation within this resolution; the second component of the
result counts those invocations. -/
def resolveCredential (config : String → Option String)
    (exchange : Nat → Except ExchangeErrorKind ExchangedToken)
    (target : DownstreamTarget) (_claims : Claims) (_inboundToken : String) :
    Except CredError Credential × Nat :=
  match target.authStrategy with
  | .SharedSecret =>
    match config target.name with
    | some k => (.ok (.SharedSecretKey k), 0)
    | none => (.error .MisconfiguredCredentialError, 0)
  | .Delegated =>
    match exchange 0 with
    | .ok t => (.ok (.DelegatedToken t.accessToken t.expiry target.requiredScope), 1)
    | .error .TransientFailure =>
      match exchange 1 with
      | .ok t => (.ok (.DelegatedToken t.accessToken t.expiry target.requiredScope), 2)
      | .error e => (.error (.ExchangeError e), 2)
    | .error e => (.error (.ExchangeError e), 1)

/-- Modelled from the spec: §4.3 outcome of one downstream HTTP call as the
dispatcher observes it: a response with status and body, or a timeout. -/
inductive CallOutcome
  | Http (status : Nat) (body : String)
  | TimedOut
  deriving Repr, DecidableEq

/-- Modelled from the spec: §3 status of one DownstreamResult. -/
inductive DStatus
  | Success
  | AuthFailure
  | UpstreamError
  | Timeout
  deriving Repr, DecidableEq

/-- Modelled from the spec: §3 DownstreamResult entry; the error detail keeps
the upstream status code and body for diagnostics. -/
structure DownstreamResult where
  targetName : String
  status : DStatus
  payload : Option String
  errorDetail : Option (Nat × String)
  credentialKindUsed : AuthStrategy
  deriving Repr, DecidableEq

/-- Modelled from the spec: §4.3 status mapping.  A 2xx response succeeds with
its body as payload; 401 and 403 are authentication rejections, mapped to
AuthFailure distinctly from every other non-2xx response, which maps to
UpstreamError; both keep the upstream status and body; exceeding the timeout
yields Timeout. -/
def classify : CallOutcome → DStatus × Option String × Option (Nat × String)
  | .Http s b =>
    if 200 ≤ s ∧ s < 300 then (.Success, some b, none)
    else if s = 401 ∨ s = 403 then (.AuthFailure, none, some (s, b))
    else (.UpstreamError, none, some (s, b))
  | .TimedOut => (.Timeout, none, none)

/-- Modelled from the spec: §4.3 one downstream call: attach the credential,
observe the outcome, record the result annotated with the credential kind. -/
def callTarget (t : DownstreamTarget) (cred : Credential) (o : CallOutcome) :
    DownstreamResult :=
  let (st, p, e) := classify o
  ⟨t.name, st, p, e, cred.kind⟩

/-- Modelled from the spec: §7 a credential-resolution failure still becomes
that target's single DownstreamResult entry instead of aborting the batch:
the credential was rejected before the call, recorded as AuthFailure with the
failure name as diagnostic detail; the kind annotation falls back to the
target's configured strategy. -/
def failedResolutionResult (t : DownstreamTarget) (e : CredError) :
    DownstreamResult :=
  match e with
  | .ExchangeError .ConsentRequired =>
    ⟨t.name, .AuthFailure, none, some (0, "ConsentRequired"), t.authStrategy⟩
  | .ExchangeError .PermissionDenied =>
    ⟨t.name, .AuthFailure, none, some (0, "PermissionDenied"), t.authStrategy⟩
  | .ExchangeError .TransientFailure =>
    ⟨t.name, .AuthFailure, none, some (0, "TransientFailure"), t.authStrategy⟩
  | .MisconfiguredCredentialError =>
    ⟨t.name, .AuthFailure, none, some (0, "MisconfiguredCredentialError"), t.authStrategy⟩

/-- Modelled from the spec: §4.2 and §4.3 processing of one target within a
request: resolve its credential (the exchange collaborator indexed per
target), then issue its downstream call; every failure is captured inside the
entry, never raised out of the batch. -/
def processTarget (config : String → Option String)
    (exchangeFor : DownstreamTarget → Nat → Except ExchangeErrorKind ExchangedToken)
    (outcomes : DownstreamTarget → CallOutcome)
    (claims : Claims) (inboundToken : String) (t : DownstreamTarget) :
    DownstreamResult :=
  match (resolveCredential config (exchangeFor t) t claims inboundToken).1 with
  | .error e => failedResolutionResult t e
  | .ok cred => callTarget t cred (outcomes t)

/-- Modelled from the spec: §4.3 the per-request result sequence, one entry
per declared target, in declaration order. -/
def relayResults (config : String → Option String)
    (exchangeFor : DownstreamTarget → Nat → Except ExchangeErrorKind ExchangedToken)
    (outcomes : DownstreamTarget → CallOutcome)
    (claims : Claims) (inboundToken : String) (targets : List DownstreamTarget) :
    List DownstreamResult :=
  targets.map (processTarget config exchangeFor outcomes claims inboundToken)

/-- Modelled from the spec: §4.3 dispatch with credentials already resolved:
issue every call and assemble the results in target-declaration order. -/
def dispatch (targets : List DownstreamTarget)
    (creds : DownstreamTarget → Credential)
    (outcomes : DownstreamTarget → CallOutcome) : List DownstreamResult :=
  targets.map (fun t => callTarget t (creds t) (outcomes t))

/-- Modelled from the spec: §5 fan-out/fan-in: completion events arrive in an
arbitrary completion order (a permutation of the target indices); each event
carries the index of its target and that target's finished result. -/
def completionEvents (targets : List DownstreamTarget)
    (creds : DownstreamTarget → Credential)
    (outcomes : DownstreamTarget → CallOutcome)
    (order : List Nat) : List (Nat × DownstreamResult) :=
  order.filterMap (fun i =>
    (targets[i]?).map (fun t => (i, callTarget t (creds t) (outcomes t))))

/-- Modelled from the spec: §4.3/§5 assembly of the results in declared target
order once all events are in: slot i of the output is the event for index i,
wherever it sits in the completion order. -/
def assemble (n : Nat) (events : List (Nat × DownstreamResult)) :
    List DownstreamResult :=
  (List.range n).filterMap (fun i => (events.find? (fun e => e.1 == i)).map (·.2))

/-- Proof-side abbreviation: the finished result of the target at index j, or
a placeholder entry at an out-of-range index (never reached in the theorems). -/
def resultAt (targets : List DownstreamTarget)
    (creds : DownstreamTarget → Credential)
    (outcomes : DownstreamTarget → CallOutcome) (j : Nat) : DownstreamResult :=
  match targets[j]? with
  | some t => callTarget t (creds t) (outcomes t)
  | none => ⟨"", .Timeout, none, none, .Delegated⟩

/-- Modelled from the spec: §3 overall status of a RelayResponse. -/
inductive OverallStatus
  | Success
  | PartialSuccess
  | Failure
  deriving Repr, DecidableEq

/-- Modelled from the spec: §3 RelayResponse: the redacted claims (subject
only), the ordered result sequence, and the overall status. -/
structure RelayResponse where
  subjectId : String
  results : List DownstreamResult
  overall : OverallStatus
  deriving Repr, DecidableEq

/-- Modelled from the spec: §4.4 normalize.  Overall status is Failure when a
required target failed, PartialSuccess when only optional targets failed, and
Success otherwise; each result already carries only its credentialKindUsed
tag, never credential material. -/
def normalize (claims : Claims) (results : List DownstreamResult)
    (requiredTargets : List String) : RelayResponse :=
  let requiredFailed := results.any (fun r =>
    requiredTargets.contains r.targetName && !(r.status == .Success))
  let anyFailed := results.any (fun r => !(r.status == .Success))
  ⟨claims.subjectId, results,
    if requiredFailed then .Failure
    else if anyFailed then .PartialSuccess
    else .Success⟩

/-- Modelled from the spec: §2 data flow for one validated request, from
credential resolution through dispatch to the normalized response. -/
def relayPipeline (config : String → Option String)
    (exchangeFor : DownstreamTarget → Nat → Except ExchangeErrorKind ExchangedToken)
    (outcomes : DownstreamTarget → CallOutcome)
    (claims : Claims) (inboundToken : String)
    (targets : List DownstreamTarget) (requiredTargets : List String) :
    RelayResponse :=
  normalize claims (relayResults config exchangeFor outcomes claims inboundToken targets)
    requiredTargets

/-- Modelled from the spec: the observable side effects of one request: each
entry names an exchange-collaborator invocation made by the Auth Strategy
Selector or a call dispatched to a downstream target. -/
inductive RelayEvent
  | exchangeCall (targetName : String)
  | downstreamCall (targetName : String)
  deriving Repr, DecidableEq

/-- Modelled from the spec: the side effects of processing one target: its
exchange invocations, then its downstream call when a credential was
resolved. -/
def targetEvents (config : String → Option String)
    (exchangeFor : DownstreamTarget → Nat → Except ExchangeErrorKind ExchangedToken)
    (claims : Claims) (inboundToken : String) (t : DownstreamTarget) :
    List RelayEvent :=
  let (r, n) := resolveCredential config (exchangeFor t) t claims inboundToken
  List.replicate n (.exchangeCall t.name) ++
    (match r with
     | .ok _ => [.downstreamCall t.name]
     | .error _ => [])

/-- Modelled from the spec: §7 request handling.  A token-validation failure
is fatal: the transport-level reply is 401 and neither the Auth Strategy
Selector nor the Downstream Dispatcher runs (no side effects at all); with
valid claims the pipeline runs, the transport status is 200, and the events
record the selector and dispatcher activity. -/
def handleRequest (validated : Except String Claims)
    (config : String → Option String)
    (exchangeFor : DownstreamTarget → Nat → Except ExchangeErrorKind ExchangedToken)
    (outcomes : DownstreamTarget → CallOutcome)
    (inboundToken : String)
    (targets : List DownstreamTarget) (requiredTargets : List String) :
    (Nat × Option RelayResponse) × List RelayEvent :=
  match validated with
  | .error _ => ((401, none), [])
  | .ok claims =>
    ((200, some (relayPipeline config exchangeFor outcomes claims inboundToken
        targets requiredTargets)),
      targets.flatMap (targetEvents config exchangeFor claims inboundToken))

end Relay

open JwtDemo ApiCall Relay

/-- C1: for every inbound request whose bearer token fails validation, the
request terminates with a transport-level 401 before the Auth Strategy
Selector or the Downstream Dispatcher runs: the event trace is empty, so
zero exchange calls and zero downstream calls are attempted. -/
theorem c1_invalid_token_short_circuits (msg : String)
    (config : String → Option String)
    (exchangeFor : DownstreamTarget → Nat → Except ExchangeErrorKind ExchangedToken)
    (outcomes : DownstreamTarget → CallOutcome)
    (inboundToken : String) (targets : List DownstreamTarget)
    (requiredTargets : List String) :
    handleRequest (.error msg) config exchangeFor outcomes inboundToken
      targets requiredTargets = ((401, none), []) := rfl

/-- C3: for every target configured SharedSecret, resolveCredential makes
zero exchange-collaborator calls, and its result is the SharedSecretKey from
static configuration, or MisconfiguredCredentialError when absent. -/
theorem c3_shared_secret_never_exchanges (config : String → Option String)
    (exchange : Nat → Except ExchangeErrorKind ExchangedToken)
    (target : DownstreamTarget) (claims : Claims) (inboundToken : String)
    (h : target.authStrategy = .SharedSecret) :
    (resolveCredential config exchange target claims inboundToken).2 = 0 ∧
    (resolveCredential config exchange target claims inboundToken).1 =
      (match config target.name with
       | some k => .ok (.SharedSecretKey k)
       | none => .error .MisconfiguredCredentialError) := by
  unfold resolveCredential
  rw [h]
  rcases hc : config target.name with _ | k <;> simp [hc]

/-- Witness for C3 at a concrete SharedSecret target with a configured key:
zero exchange calls, key returned from configuration. -/
theorem c3_witness :
    (resolveCredential (fun _ => some "service-key")
        (fun _ => .error .TransientFailure)
        ⟨"search", "https://s", "scope-s", .SharedSecret, 10000⟩
        ⟨"sub", "ten", [], 100, "aud"⟩ "inbound").2 = 0 ∧
    (resolveCredential (fun _ => some "service-key")
        (fun _ => .error .TransientFailure)
        ⟨"search", "https://s", "scope-s", .SharedSecret, 10000⟩
        ⟨"sub", "ten", [], 100, "aud"⟩ "inbound").1 =
      .ok (.SharedSecretKey "service-key") :=
  c3_shared_secret_never_exchanges _ _ _ _ _ rfl

/-- C8: for every Delegated target, when the exchange collaborator fails with
ConsentRequired or PermissionDenied on its first invocation, resolveCredential
does not retry: the collaborator is invoked exactly once and the failure is
surfaced. -/
theorem c8_consent_not_retried (config : String → Option String)
    (exchange : Nat → Except ExchangeErrorKind ExchangedToken)
    (target : DownstreamTarget) (claims : Claims) (inboundToken : String)
    (k : ExchangeErrorKind)
    (hstrat : target.authStrategy = .Delegated)
    (hk : k = .ConsentRequired ∨ k = .PermissionDenied)
    (hex : exchange 0 = .error k) :
    resolveCredential config exchange target claims inboundToken =
      (.error (.ExchangeError k), 1) := by
  unfold resolveCredential
  rw [hstrat, hex]
  rcases hk with hk | hk <;> subst hk <;> rfl

/-- Witness for C8 at a concrete Delegated target whose exchange reports
ConsentRequired: exactly one collaborator invocation. -/
theorem c8_witness :
    resolveCredential (fun _ => none) (fun _ => .error .ConsentRequired)
        ⟨"graph", "https://g", "scope-g", .Delegated, 10000⟩
        ⟨"sub", "ten", [], 100, "aud"⟩ "inbound" =
      (.error (.ExchangeError .ConsentRequired), 1) :=
  c8_consent_not_retried _ _ _ _ _ _ rfl (Or.inl rfl) rfl

/-- C9: parseJwt is total on every input string: it yields either a claims
object or null, and every exception of its body is caught (errors of the body
become null, successes pass through unfiltered). -/
theorem c9_parsejwt_total_never_throws (token : String) :
    (parseJwt token = none ∨ ∃ j, parseJwt token = some j) ∧
    (∀ e, parseJwtBody token = .error e → parseJwt token = none) ∧
    (∀ j, parseJwtBody token = .ok j → parseJwt token = some j) := by
  refine ⟨?_, ?_, ?_⟩
  · unfold parseJwt
    cases parseJwtBody token
    · exact Or.inl rfl
    · exact Or.inr ⟨_, rfl⟩
  · intro e he
    unfold parseJwt
    rw [he]
    rfl
  · intro j hj
    unfold parseJwt
    rw [hj]
    rfl

/-- Witness for C9 at concrete inputs: the empty string (no payload segment)
yields null, and a decodable token yields its claims object. -/
theorem c9_witness :
    parseJwt "" = none ∧
    parseJwt farFutureDemoToken = some (Json.obj [("exp", Json.num 9999999999 0)]) :=
  ⟨(c9_parsejwt_total_never_throws "").2.1 .typeError rfl,
   (c9_parsejwt_total_never_throws farFutureDemoToken).2.2 _ rfl⟩

/-- C10: for every call to callPythonOboApi with a non-empty accessToken
argument, MSAL is never consulted (zero acquireTokenSilent calls) and the
outgoing Authorization header is exactly the string built by prefixing
Bearer and a space to the given token, unmodified. -/
theorem c10_nonempty_token_passthrough (s : String) (msal : MsalInstance)
    (response : FetchResponse) (hs : s ≠ "") :
    (callPythonOboApi (some s) msal response).msalAcquireCalls = 0 ∧
    (callPythonOboApi (some s) msal response).authorizationHeader =
      some ("Bearer " ++ s) := by
  have hb : (s == "") = false := beq_eq_false_iff_ne.mpr hs
  unfold callPythonOboApi fetchWithBearer
  simp only [hb]
  cases hok : response.ok <;> simp [hok]

/-- Witness for C10 at a concrete non-empty token: zero MSAL calls and the
exact Bearer header. -/
theorem c10_witness :
    (callPythonOboApi (some "tok") ⟨none, .error "x"⟩
        ⟨true, 200, "OK", "body"⟩).msalAcquireCalls = 0 ∧
    (callPythonOboApi (some "tok") ⟨none, .error "x"⟩
        ⟨true, 200, "OK", "body"⟩).authorizationHeader =
      some ("Bearer " ++ "tok") :=
  c10_nonempty_token_passthrough "tok" _ _ (by decide)

/-- C4 counterexample: the claim says extract fails with ExpiredTokenError
whenever the expiry is earlier than the current time, but parseJwt, the
decoding function of the source, performs no expiry check and has no typed
errors: this structurally decodable token carries exp 0, earlier than any
realistic clock (for example 1700000000), and parseJwt still returns its
claims object instead of failing. -/
theorem c4_counterexample :
    (0 : Int) < 1700000000 ∧
    parseJwt expiredDemoToken = some (Json.obj [("exp", Json.num 0 0)]) ∧
    jsonLookup (Json.obj [("exp", Json.num 0 0)]) "exp" = some (Json.num 0 0) :=
  ⟨by norm_num, rfl, rfl⟩

/-- C4 as amended: when the token is not structurally decodable, parseJwt
signals failure by returning null (there is no typed MalformedTokenError): a
token with fewer than two dot-separated segments yields null, and every
decoding failure of the body yields null; and parseJwt performs no expiry
check at all: every successfully decoded payload is returned as is, so both a
token with exp 0 and one with exp 9999999999 yield their claims objects. -/
theorem c4_amended_null_on_malformed_no_expiry_check (token : String) :
    ((splitOnDot token.toList).length ≤ 1 → parseJwt token = none) ∧
    (∀ e, parseJwtBody token = .error e → parseJwt token = none) ∧
    (∀ j, parseJwtBody token = .ok j → parseJwt token = some j) ∧
    parseJwt expiredDemoToken = some (Json.obj [("exp", Json.num 0 0)]) ∧
    parseJwt farFutureDemoToken = some (Json.obj [("exp", Json.num 9999999999 0)]) := by
  refine ⟨?_, ?_, ?_, rfl, rfl⟩
  · intro h
    unfold parseJwt parseJwtBody
    rw [List.getElem?_eq_none h]
    rfl
  · intro e he
    unfold parseJwt
    rw [he]
    rfl
  · intro j hj
    unfold parseJwt
    rw [hj]
    rfl

/-- Witness for the amended C4 at concrete malformed inputs: a token with no
payload segment and a token whose payload is not valid base64. -/
theorem c4_witness :
    parseJwt "justonesegment" = none ∧ parseJwt "a.%%%.c" = none :=
  ⟨(c4_amended_null_on_malformed_no_expiry_check "justonesegment").1 (by decide),
   (c4_amended_null_on_malformed_no_expiry_check "a.%%%.c").2.1
     .invalidCharacterError rfl⟩

/-- C5: within one batch, every target's outcome, failure or success, is
captured as exactly that target's single DownstreamResult entry: the result
sequence always has one entry per target, the entry at index i is the
processing of target i alone, and it is unchanged under any change to the
exchange collaborators and downstream outcomes of the other targets, so no
failure aborts the batch or escapes it. -/
theorem c5_error_isolation (config : String → Option String)
    (exf₁ exf₂ : DownstreamTarget → Nat → Except ExchangeErrorKind ExchangedToken)
    (out₁ out₂ : DownstreamTarget → CallOutcome)
    (claims : Claims) (inboundToken : String)
    (targets : List DownstreamTarget) (i : Nat) (t : DownstreamTarget)
    (ht : targets[i]? = some t)
    (hex : exf₂ t = exf₁ t) (hout : out₂ t = out₁ t) :
    (relayResults config exf₁ out₁ claims inboundToken targets).length =
      targets.length ∧
    (relayResults config exf₁ out₁ claims inboundToken targets)[i]? =
      some (processTarget config exf₁ out₁ claims inboundToken t) ∧
    (relayResults config exf₂ out₂ claims inboundToken targets)[i]? =
      (relayResults config exf₁ out₁ claims inboundToken targets)[i]? := by
  unfold relayResults
  refine ⟨List.length_map _ _, ?_, ?_⟩
  · rw [List.getElem?_map, ht]
    rfl
  · rw [List.getElem?_map, List.getElem?_map, ht]
    show some (processTarget config exf₂ out₂ claims inboundToken t) =
      some (processTarget config exf₁ out₁ claims inboundToken t)
    unfold processTarget
    rw [hex, hout]

/-- Witness for C5 at a concrete two-target batch in which the second target's
exchange fails with PermissionDenied while the first target's collaborator
changes between the two runs everywhere except at the first target. -/
theorem c5_witness :
    (relayResults (fun _ => none)
        (fun t _ => if t.name == "graph" then .ok ⟨"tokg", 5⟩ else .error .PermissionDenied)
        (fun _ => .Http 200 "ok") ⟨"sub", "ten", [], 9, "aud"⟩ "inbound"
        [⟨"graph", "https://g", "sg", .Delegated, 10⟩,
         ⟨"search", "https://s", "ss", .Delegated, 10⟩]).length = 2 ∧
    (relayResults (fun _ => none)
        (fun t _ => if t.name == "graph" then .ok ⟨"tokg", 5⟩ else .error .PermissionDenied)
        (fun _ => .Http 200 "ok") ⟨"sub", "ten", [], 9, "aud"⟩ "inbound"
        [⟨"graph", "https://g", "sg", .Delegated, 10⟩,
         ⟨"search", "https://s", "ss", .Delegated, 10⟩])[0]? =
      some (processTarget (fun _ => none)
        (fun t _ => if t.name == "graph" then .ok ⟨"tokg", 5⟩ else .error .PermissionDenied)
        (fun _ => .Http 200 "ok") ⟨"sub", "ten", [], 9, "aud"⟩ "inbound"
        ⟨"graph", "https://g", "sg", .Delegated, 10⟩) ∧
    (relayResults (fun _ => none)
        (fun t _ => if t.name == "graph" then .ok ⟨"tokg", 5⟩ else .error .PermissionDenied)
        (fun _ => .Http 200 "ok") ⟨"sub", "ten", [], 9, "aud"⟩ "inbound"
        [⟨"graph", "https://g", "sg", .Delegated, 10⟩,
         ⟨"search", "https://s", "ss", .Delegated, 10⟩])[0]? =
      (relayResults (fun _ => none)
        (fun t _ => if t.name == "graph" then .ok ⟨"tokg", 5⟩ else .error .PermissionDenied)
        (fun _ => .Http 200 "ok") ⟨"sub", "ten", [], 9, "aud"⟩ "inbound"
        [⟨"graph", "https://g", "sg", .Delegated, 10⟩,
         ⟨"search", "https://s", "ss", .Delegated, 10⟩])[0]? :=
  c5_error_isolation _ _ _ _ _ _ _ _ _ _ rfl rfl rfl

/-- C6: for every downstream call, an HTTP 401 or 403 response maps to status
AuthFailure and every other non-2xx response maps to status UpstreamError,
both carrying the upstream status and body as detail, and the two statuses
are distinct, so the caller can tell a rejected credential from a generic
upstream error. -/
theorem c6_auth_failure_distinct_from_upstream_error (t : DownstreamTarget)
    (cred : Credential) (s : Nat) (b : String) :
    ((s = 401 ∨ s = 403) →
      (callTarget t cred (.Http s b)).status = .AuthFailure ∧
      (callTarget t cred (.Http s b)).errorDetail = some (s, b)) ∧
    (¬(200 ≤ s ∧ s < 300) → s ≠ 401 → s ≠ 403 →
      (callTarget t cred (.Http s b)).status = .UpstreamError ∧
      (callTarget t cred (.Http s b)).errorDetail = some (s, b)) ∧
    DStatus.AuthFailure ≠ DStatus.UpstreamError := by
  refine ⟨?_, ?_, by decide⟩
  · intro hs
    have h2 : ¬(200 ≤ s ∧ s < 300) := by rcases hs with rfl | rfl <;> omega
    simp [callTarget, classify, if_neg h2, if_pos hs]
  · intro h2 h401 h403
    have h3 : ¬(s = 401 ∨ s = 403) := by tauto
    simp [callTarget, classify, if_neg h2, if_neg h3]

/-- Witness for C6 at a concrete 401 response and a concrete 503 response:
the former is AuthFailure, the latter UpstreamError, details preserved. -/
theorem c6_witness :
    ((callTarget ⟨"g", "https://g", "sg", .Delegated, 10⟩ (.SharedSecretKey "k")
        (.Http 401 "denied")).status = .AuthFailure ∧
     (callTarget ⟨"g", "https://g", "sg", .Delegated, 10⟩ (.SharedSecretKey "k")
        (.Http 401 "denied")).errorDetail = some (401, "denied")) ∧
    ((callTarget ⟨"g", "https://g", "sg", .Delegated, 10⟩ (.SharedSecretKey "k")
        (.Http 503 "oops")).status = .UpstreamError ∧
     (callTarget ⟨"g", "https://g", "sg", .Delegated, 10⟩ (.SharedSecretKey "k")
        (.Http 503 "oops")).errorDetail = some (503, "oops")) :=
  ⟨(c6_auth_failure_distinct_from_upstream_error _ _ 401 "denied").1 (Or.inl rfl),
   (c6_auth_failure_distinct_from_upstream_error _ _ 503 "oops").2.1
     (by omega) (by omega) (by omega)⟩

/-- Congruence of one target's processing in the credential material: two
configurations defined on the same names and two exchange collaborators with
the same failure shape produce the same result entry, because only the
credential kind ever reaches the entry. -/
theorem processTarget_congr (config₁ config₂ : String → Option String)
    (exf₁ exf₂ : DownstreamTarget → Nat → Except ExchangeErrorKind ExchangedToken)
    (out : DownstreamTarget → CallOutcome) (claims : Claims)
    (inboundToken : String) (t : DownstreamTarget)
    (hc : (config₁ t.name).isSome = (config₂ t.name).isSome)
    (he : ∀ i, exchangeShape (exf₁ t i) = exchangeShape (exf₂ t i)) :
    processTarget config₁ exf₁ out claims inboundToken t =
      processTarget config₂ exf₂ out claims inboundToken t := by
  unfold processTarget resolveCredential
  cases hstrat : t.authStrategy with
  | SharedSecret =>
    rcases h1 : config₁ t.name with _ | k1 <;> rcases h2 : config₂ t.name with _ | k2
    · rfl
    · rw [h1, h2] at hc
      simp at hc
    · rw [h1, h2] at hc
      simp at hc
    · simp [callTarget, Credential.kind]
  | Delegated =>
    have h0 := he 0
    rcases e1 : exf₁ t 0 with k1 | tok1 <;> rcases e2 : exf₂ t 0 with k2 | tok2
    · rw [e1, e2] at h0
      simp only [exchangeShape, Option.some.injEq] at h0
      subst h0
      cases k1 with
      | TransientFailure =>
        have h1 := he 1
        rcases f1 : exf₁ t 1 with m1 | sok1 <;> rcases f2 : exf₂ t 1 with m2 | sok2
        · rw [f1, f2] at h1
          simp only [exchangeShape, Option.some.injEq] at h1
          subst h1
          rfl
        · rw [f1, f2] at h1
          simp [exchangeShape] at h1
        · rw [f1, f2] at h1
          simp [exchangeShape] at h1
        · simp [callTarget, Credential.kind]
      | ConsentRequired => rfl
      | PermissionDenied => rfl
    · rw [e1, e2] at h0
      simp [exchangeShape] at h0
    · rw [e1, e2] at h0
      simp [exchangeShape] at h0
    · simp [callTarget, Credential.kind]

/-- C2: the outward-facing RelayResponse contains no raw token or key material
from any Credential: replacing every configured shared key and every token the
exchange collaborator mints by different material (same shapes) leaves the
response of the pipeline through normalize unchanged, so only the
credentialKindUsed enum tag of each credential is exposed. -/
theorem c2_response_free_of_credential_material
    (config₁ config₂ : String → Option String)
    (exf₁ exf₂ : DownstreamTarget → Nat → Except ExchangeErrorKind ExchangedToken)
    (out : DownstreamTarget → CallOutcome) (claims : Claims)
    (inboundToken : String) (targets : List DownstreamTarget)
    (requiredTargets : List String)
    (hc : ∀ n, (config₁ n).isSome = (config₂ n).isSome)
    (he : ∀ t i, exchangeShape (exf₁ t i) = exchangeShape (exf₂ t i)) :
    relayPipeline config₁ exf₁ out claims inboundToken targets requiredTargets =
      relayPipeline config₂ exf₂ out claims inboundToken targets requiredTargets := by
  unfold relayPipeline relayResults
  rw [List.map_congr_left (fun t _ =>
    processTarget_congr config₁ config₂ exf₁ exf₂ out claims inboundToken t
      (hc t.name) (he t))]

/-- Witness for C2 at a concrete two-target request whose shared key and
minted token differ between the two runs: the responses coincide. -/
theorem c2_witness :
    relayPipeline (fun _ => some "key-one") (fun _ _ => .ok ⟨"token-one", 10⟩)
        (fun _ => .Http 200 "hits") ⟨"sub", "ten", [], 99, "aud"⟩ "inbound"
        [⟨"graph", "https://g", "sg", .Delegated, 10⟩,
         ⟨"search", "https://s", "ss", .SharedSecret, 10⟩] ["graph"] =
      relayPipeline (fun _ => some "key-two") (fun _ _ => .ok ⟨"token-two", 20⟩)
        (fun _ => .Http 200 "hits") ⟨"sub", "ten", [], 99, "aud"⟩ "inbound"
        [⟨"graph", "https://g", "sg", .Delegated, 10⟩,
         ⟨"search", "https://s", "ss", .SharedSecret, 10⟩] ["graph"] :=
  c2_response_free_of_credential_material _ _ _ _ _ _ _ _ _
    (fun _ => rfl) (fun _ _ => rfl)

/-- Finding by key in keyed events built by mapping over indices: the first
hit at key i carries exactly the value computed at i. -/
theorem find_keyed_event (F : Nat → DownstreamResult) (l : List Nat) (i : Nat)
    (hi : i ∈ l) :
    (l.map (fun j => (j, F j))).find? (fun e => e.1 == i) = some (i, F i) := by
  induction l with
  | nil => cases hi
  | cons j l ih =>
    rw [List.map_cons, List.find?_cons]
    rcases eq_or_ne j i with rfl | hne
    · simp
    · have hb : ((j, F j).1 == i) = false := by simpa using hne
      rw [hb]
      refine ih ?_
      rcases List.mem_cons.mp hi with h | h
      · exact absurd h.symm hne
      · exact h

/-- When every completion index is in range, the completion events are
exactly the per-index results keyed by their index, listed in completion
order. -/
theorem completionEvents_eq_map (targets : List DownstreamTarget)
    (creds : DownstreamTarget → Credential)
    (outcomes : DownstreamTarget → CallOutcome)
    (order : List Nat) (hlt : ∀ j ∈ order, j < targets.length) :
    completionEvents targets creds outcomes order =
      order.map (fun j => (j, resultAt targets creds outcomes j)) := by
  unfold completionEvents
  have hcong : ∀ j ∈ order,
      (targets[j]?).map (fun t => (j, callTarget t (creds t) (outcomes t))) =
        (some ∘ fun j => (j, resultAt targets creds outcomes j)) j := by
    intro j hj
    have hjlt := hlt j hj
    have ht : targets[j]? = some targets[j] := List.getElem?_eq_getElem hjlt
    simp [Function.comp, ht, resultAt]
  rw [List.filterMap_congr hcong, List.filterMap_eq_map]

/-- C7: for every sequence of dispatched targets and every completion order of
the downstream calls, assembling the completion events yields exactly the
dispatch result sequence, which is in the targets' declaration order. -/
theorem c7_results_in_declaration_order (targets : List DownstreamTarget)
    (creds : DownstreamTarget → Credential)
    (outcomes : DownstreamTarget → CallOutcome)
    (order : List Nat) (hperm : order.Perm (List.range targets.length)) :
    assemble targets.length (completionEvents targets creds outcomes order) =
      dispatch targets creds outcomes := by
  have hlt : ∀ j ∈ order, j < targets.length := fun j hj =>
    List.mem_range.mp (hperm.mem_iff.mp hj)
  rw [completionEvents_eq_map targets creds outcomes order hlt]
  unfold assemble dispatch
  have hsome : ∀ i ∈ List.range targets.length,
      ((order.map (fun j => (j, resultAt targets creds outcomes j))).find?
          (fun e => e.1 == i)).map (·.2) =
        (some ∘ fun i => resultAt targets creds outcomes i) i := by
    intro i hi
    have himem : i ∈ order := hperm.mem_iff.mpr hi
    rw [find_keyed_event (resultAt targets creds outcomes) order i himem]
    rfl
  rw [List.filterMap_congr hsome, List.filterMap_eq_map]
  refine List.ext_getElem? fun m => ?_
  rw [List.getElem?_map, List.getElem?_map]
  rcases Nat.lt_or_ge m targets.length with hm | hm
  · have hr : (List.range targets.length)[m]? = some m := List.getElem?_range hm
    have ht : targets[m]? = some targets[m] := List.getElem?_eq_getElem hm
    rw [hr, ht]
    simp [resultAt, ht]
  · have hr : (List.range targets.length)[m]? = none :=
      List.getElem?_eq_none (by simpa using hm)
    have ht : targets[m]? = none := List.getElem?_eq_none hm
    rw [hr, ht]
    rfl

/-- Witness for C7 at a concrete two-target batch completing in reversed
order: the assembled results equal the declaration-order dispatch. -/
theorem c7_witness :
    assemble 2 (completionEvents
        [⟨"graph", "https://g", "sg", .Delegated, 10⟩,
         ⟨"search", "https://s", "ss", .SharedSecret, 10⟩]
        (fun t => if t.name == "graph" then .DelegatedToken "tg" 5 "sg"
                  else .SharedSecretKey "k")
        (fun t => if t.name == "graph" then .Http 200 "g-ok" else .Http 403 "no")
        [1, 0]) =
      dispatch
        [⟨"graph", "https://g", "sg", .Delegated, 10⟩,
         ⟨"search", "https://s", "ss", .SharedSecret, 10⟩]
        (fun t => if t.name == "graph" then .DelegatedToken "tg" 5 "sg"
                  else .SharedSecretKey "k")
        (fun t => if t.name == "graph" then .Http 200 "g-ok" else .Http 403 "no") :=
  c7_results_in_declaration_order _ _ _ [1, 0] (by decide)
